import Mathlib

/-!
Shallow embedding of the hephaestus repository (ISP2 telemetry logger):
the packet framing/decoding layer (`src/isp2/packet.py`, `src/innovate/packet.py`,
`src/isp2/isp2_serial.py`) and the windowed running-average / rolling-file main
loop (`src/isp2/innovate2cvs.py`, mirrored by `src/MAX31855/max2csv.py`).

Python exceptions are modelled with `Except PyErr`; Python ints are `Nat`/`Int`.
The scripts are Python 2 (`print` statements, `SimpleHTTPServer`), so the
channel values of `innovate2cvs.py` — produced by `aux_word2aux_channel` as
ints and combined with `/`, which floors on ints — stay ints and are modelled
as `Int` with `Int.fdiv`; the float running-average formula of `max2csv.py` is
embedded separately over `ℚ` (exact for every value the theorems touch).
Elapsed-hours values, floats in the source, are formatted from their exact
rational `Δseconds / 3600`, which agrees with the float to well within the
printed precision for the magnitudes involved.
-/

namespace Hephaestus

/-- Error outcomes of the embedded Python code.  Each constructor corresponds to
one `raise`/builtin-exception site in the source. -/
inductive PyErr where
  /-- `raise Exception('Invalid header')` in the header setter. -/
  | invalidHeader
  /-- `raise Exception('Header must be exactly one word long.')`. -/
  | headerLength
  /-- `struct.error` from `struct.unpack` on a byte string of odd length. -/
  | structError
  /-- `raise Exception('No data in packet, expected %i')` in the data setter. -/
  | noData
  /-- `raise Exception('Packet length does not match specification from header')`. -/
  | lengthMismatch
  /-- `raise Exception('Not an aux channel word')` in `aux_word2aux_channel`. -/
  | notAuxWord
  /-- a Python `TypeError` (subscripting an int, `len(None)`, `None * 2`,
      or calling a function with a missing required positional argument). -/
  | typeError
  /-- a Python `AttributeError` (reading an attribute that was never assigned). -/
  | attributeError
  /-- a Python `IndexError`. -/
  | indexError
  /-- a Python `NameError` (reading an unbound local variable). -/
  | nameError
  /-- `sys.exit(1)` (a `SystemExit`). -/
  | systemExit
deriving DecidableEq, Repr

/-- Result type of embedded Python code: a value or a raised exception. -/
abbrev Py (α : Type) := Except PyErr α

/-! ### Bit masks from `src/isp2/packet.py` (class attributes of `InnovatePacket`) -/

def START_MARKER_MASK : Nat := 0b1000000000000000

/-- `HEADER_MASK = START_MARKER_MASK | 0b0010001010000000`. -/
def HEADER_MASK : Nat := START_MARKER_MASK ||| 0b0010001010000000

def SENSOR_DATA_MASK : Nat := 0b0001000000000000

def AUX_CHANNEL_LOW_MASK : Nat := 0b1100000010000000

/-! ### Python truthiness helpers -/

/-- Truthiness of an `Option Nat` holding a Python int or `None`:
`None` and `0` are falsy. -/
def pyTruthyONat : Option Nat → Bool
  | none => false
  | some n => n ≠ 0

/-- Truthiness of an `Option (List α)` holding a Python sequence or `None`:
`None` and an empty sequence are falsy. -/
def pyTruthyOList {α : Type} : Option (List α) → Bool
  | none => false
  | some l => ¬ l.isEmpty

/-- Truthiness of an `Option Bool` holding a Python bool or `None`. -/
def pyTruthyOBool : Option Bool → Bool
  | none => false
  | some b => b

/-! ### `InnovatePacket._to_words` -/

/-- Big-endian 16-bit words of a byte list: consecutive byte pairs `b0, b1`
become `b0 * 256 + b1` (the `>H` format of `struct.unpack`). -/
def wordsOf : List Nat → List Nat
  | b0 :: b1 :: rest => (b0 * 256 + b1) :: wordsOf rest
  | _ => []

/-- Embeds `_to_words` applied to a (non-`None`) byte string:
`struct.unpack(">%dH" % (len(b)/2), b)` raises `struct.error` when the length
is odd (Python 2 `/` floors, so the format then expects one byte fewer than
supplied), and otherwise yields the list of big-endian words. -/
def toWords (bs : List Nat) : Py (List Nat) :=
  if bs.length % 2 = 0 then .ok (wordsOf bs) else .error .structError

/-! ### `src/isp2/packet.py` -/

/-- Embeds the `header` setter of `InnovatePacket` in `src/isp2/packet.py`:
`None` input stores `None`; an empty byte string unpacks to an empty tuple,
which is falsy, so the checks are skipped (the stored empty tuple behaves like
`None` for every later truthiness test, so it is modelled as `none`); a byte
string of more than one word raises; a one-word byte string is checked against
`HEADER_MASK` and stored or rejected. -/
def isp2_header_set : Option (List Nat) → Py (Option Nat)
  | none => .ok none
  | some bs => do
    let ws ← toWords bs
    match ws with
    | [] => .ok none
    | [w] =>
      if w &&& HEADER_MASK = HEADER_MASK then .ok (some w)
      else .error .invalidHeader
    | _ => .error .headerLength

/-- Embeds the `packet_length` property in `src/isp2/packet.py`:
`if self._header:` makes the body run only for a truthy (nonzero, non-`None`)
stored header, returning `(h & 0b1111111) + (128 if h & 0b100000000 else 0)`;
otherwise the property returns `None`. -/
def isp2_packet_length (h : Option Nat) : Option Nat :=
  match h with
  | none => none
  | some w =>
    if w = 0 then none
    else some ((w &&& 0b0000000001111111) +
      (if w &&& 0b0000000100000000 ≠ 0 then 0b10000000 else 0))

/-- Embeds the `is_sensor_data` property: `None` for a falsy header, otherwise
whether `SENSOR_DATA_MASK` is fully set. -/
def isp2_is_sensor_data (h : Option Nat) : Option Bool :=
  match h with
  | none => none
  | some w =>
    if w = 0 then none
    else some (decide (w &&& SENSOR_DATA_MASK = SENSOR_DATA_MASK))

/-- Embeds the `data` setter of `InnovatePacket` in `src/isp2/packet.py`:
`data = self._to_words(data)` (`None` stays `None`); then
`if not data and self.packet_length:` raises `'No data in packet'`; then
`if self._header and len(data) != self.packet_length:` — `len(None)` is a
`TypeError`, and a length disagreeing with the header raises.  Note the
comparison `len(data) != self.packet_length` is between an int and a possibly
`None` property value, which in Python is simply unequal; this matches the
`Option Nat` inequality used here. -/
def isp2_data_set (h : Option Nat) (bs : Option (List Nat)) :
    Py (Option (List Nat)) := do
  let ws : Option (List Nat) ←
    match bs with
    | none => pure none
    | some b => (toWords b).map some
  if ¬ pyTruthyOList ws ∧ pyTruthyONat (isp2_packet_length h) then
    .error .noData
  else if pyTruthyONat h then
    match ws with
    | none => .error .typeError
    | some l =>
      if some l.length ≠ isp2_packet_length h then .error .lengthMismatch
      else .ok (some l)
  else .ok ws

/-- Embeds `aux_word2aux_channel` in `src/isp2/packet.py`: a word with any bit
of `AUX_CHANNEL_LOW_MASK` set raises; otherwise the value is bits 6–0 plus
bits 13–8 shifted right by one. -/
def aux_word2aux_channel (w : Nat) : Py Nat :=
  if ¬ (w &&& AUX_CHANNEL_LOW_MASK = 0) then .error .notAuxWord
  else .ok ((w &&& 0b0000000001111111) + ((w &&& 0b0011111100000000) >>> 1))

/-! ### `src/innovate/packet.py` (the older duplicate) -/

/-- Minimal Python runtime values, used to embed the subscription expression
`self._header[0]` in `src/innovate/packet.py`. -/
inductive PyVal where
  | intV : Int → PyVal
  | tupleV : List PyVal → PyVal
  | noneV

/-- Python subscription `v[i]`: defined on tuples, a `TypeError` on ints and
`None` (`'int' object is not subscriptable`). -/
def pySubscript : PyVal → Nat → Py PyVal
  | .tupleV l, i =>
    match l.get? i with
    | some v => .ok v
    | none => .error .indexError
  | _, _ => .error .typeError

/-- Embeds the `header` setter of `InnovatePacket` in `src/innovate/packet.py`.
Unlike the `isp2` copy it has no truthiness guard: `_to_words(None)` is `None`
and `len(None)` raises `TypeError`; an empty byte string gives `len(()) != 1`
and raises the length error. -/
def innovate_header_set : Option (List Nat) → Py Nat
  | none => .error .typeError
  | some bs => do
    let ws ← toWords bs
    match ws with
    | [w] =>
      if w &&& HEADER_MASK = HEADER_MASK then .ok w
      else .error .invalidHeader
    | _ => .error .headerLength

/-- Embeds the `packet_length` property in `src/innovate/packet.py`.  The
setter stored the header as an int, so the line
`packet_length = self._header[0] & 0b0000000001111111` subscripts an int and
raises `TypeError`; were it to proceed, the next line reads `self._headeri`,
an attribute that is never assigned, which would raise `AttributeError`. -/
def innovate_packet_length (h : Nat) : Py (Option Nat) :=
  if h = 0 then .ok none
  else do
    let _ ← pySubscript (.intV h) 0
    .error .attributeError

/-! ### String helpers for the file writer (`src/isp2/innovate2cvs.py`) -/

/-- Left-pads a string with `'0'` up to width `w` (the `0` flag of Python
format specs and the zero padding of `strftime` fields). -/
def padZeros (s : String) (w : Nat) : String :=
  if s.length < w then String.mk (List.replicate (w - s.length) '0') ++ s else s

/-- Characters removed by Python `str.strip()` with no argument. -/
def isPySpace (c : Char) : Bool :=
  c = ' ' ∨ c = '\t' ∨ c = '\n' ∨ c = '\x0d' ∨ c = '\x0b' ∨ c = '\x0c'

/-- Embeds Python `str.strip()`: drops leading and trailing whitespace. -/
def pyStrip (s : String) : String :=
  String.mk (((s.toList.dropWhile isPySpace).reverse.dropWhile isPySpace).reverse)

/-- First line of a file's contents, excluding the terminator: `readline()`
returns the first line including its `'\n'`, which `strip()` then removes, so
comparing the stripped text before the first `'\n'` is equivalent. -/
def firstLine (s : String) : String :=
  String.mk (s.toList.takeWhile (fun c => c ≠ '\n'))

/-- Embeds Python `format(x, '0W.Pf')` applied to the nonnegative rational
value `num / den` (the argument in the source is the float
`total_seconds()/3600.0`; every value so formatted in the traces below is
exactly representable well within float rounding): the value is rendered with
exactly `prec` digits after the decimal point, rounding to nearest, and the
whole string is zero-padded on the left to width `width`.
`floor(num/den + 1/2)` is computed as `(2 * num * 10^prec + den).fdiv (2 * den)`. -/
def pyFormatFixedRat (width prec : Nat) (num den : Int) : String :=
  let scaled : Int := (2 * num * (10 : Int) ^ prec + den).fdiv (2 * den)
  let ip : Int := scaled / (10 : Int) ^ prec
  let fp : Int := scaled % (10 : Int) ^ prec
  padZeros (toString ip ++ "." ++ padZeros (toString fp.toNat) prec) width

/-- Embeds Python `str()` applied to a channel value of the main loop.  In
`innovate2cvs.py` every channel value is a Python 2 int (`aux_word2aux_channel`
returns an int and `avg + (new - avg)/n_in_average` on ints stays an int), so
`str` prints the bare integer with no decimal point, no padding and no
fractional digits. -/
def pyStr (i : Int) : String := toString i

/-! ### Filesystem model -/

/-- The filesystem: an association of path to file contents.  A listed path
with contents `""` is an existing empty file (`st_size == 0`). -/
abbrev FS := List (String × String)

/-- Contents of a file, `none` when the path does not exist. -/
def lookupFS : FS → String → Option String
  | [], _ => none
  | (q, c) :: rest, p => if q = p then some c else lookupFS rest p

/-- Replaces (or creates) the file at `p` with contents `c`. -/
def updateFS : FS → String → String → FS
  | [], p, c => [(p, c)]
  | (q, d) :: rest, p, c =>
    if q = p then (p, c) :: rest else (q, d) :: updateFS rest p c

/-- Appends `s` to the file at `p` (a write through an append-mode,
line-buffered handle). -/
def appendFS (fs : FS) (p : String) (s : String) : FS :=
  updateFS fs p ((lookupFS fs p).getD "" ++ s)

/-- Embeds `os.path.join(d, name)` for the paths used by the scripts: an empty
directory leaves the name alone, otherwise a single `/` joins them. -/
def joinPath (d name : String) : String :=
  if d = "" then name
  else if d.endsWith "/" then d ++ name else d ++ "/" ++ name

/-! ### Datetime model -/

/-- A calendar date, as returned by `datetime.date()`. -/
structure PyDate where
  year : Nat
  month : Nat
  day : Nat
deriving DecidableEq, Repr

/-- Shallow model of `datetime.datetime`: the calendar fields drive
`.date()` and `strftime`, and `absSeconds` is the position on the time line,
so that `(a - b).total_seconds()` is `a.absSeconds - b.absSeconds`.  Concrete
instances below always set the two representations consistently. -/
structure PyDateTime where
  date : PyDate
  hour : Nat
  minute : Nat
  second : Nat
  absSeconds : Int
deriving DecidableEq, Repr

/-- Embeds `strftime('%H:%M:%S')`. -/
def strftimeHMS (t : PyDateTime) : String :=
  padZeros (toString t.hour) 2 ++ ":" ++ padZeros (toString t.minute) 2 ++
    ":" ++ padZeros (toString t.second) 2

/-- Embeds `strftime('%Y%m%d')` on a date. -/
def strftimeYMD (d : PyDate) : String :=
  padZeros (toString d.year) 4 ++ padZeros (toString d.month) 2 ++
    padZeros (toString d.day) 2

/-! ### `get_output_filename` and `get_output_file` (`src/isp2/innovate2cvs.py`) -/

/-- Embeds `get_output_filename(current_date, output_directory, short_interval)`:
a falsy directory is replaced by `''`, and the date-derived basename is
`'%Y%m%d-short_interval.tsv'` or `'%Y%m%d-tc4.tsv'`. -/
def get_output_filename (d : PyDate) (dir : Option String) (short : Bool) :
    String :=
  let dirS := match dir with | none => "" | some s => s
  if short then joinPath dirS (strftimeYMD d ++ "-short_interval.tsv")
  else joinPath dirS (strftimeYMD d ++ "-tc4.tsv")

/-- Embeds `get_output_file(filename, data_dict, sep)` acting on the
filesystem `fs`, with `keys` the ordered keys of `data_dict`.  The returned
string is the path the obtained handle writes to.  When the target exists and
is non-empty, the first line is read through a read-only handle and compared,
after `strip()`, with the expected header: on a match the file is reopened in
append mode, otherwise a message is printed and `sys.exit(1)` raised (the
filesystem is not modified on that path — the only open handle was read-only).
When the target is absent or empty it is (over)written with the header line. -/
def get_output_file (fs : FS) (filename : String) (keys : List String)
    (sep : String) : Py (FS × String) :=
  let header_line := String.intercalate sep keys
  match lookupFS fs filename with
  | some content =>
    if content ≠ "" then
      if pyStrip (firstLine content) = header_line then .ok (fs, filename)
      else .error .systemExit
    else .ok (updateFS fs filename (header_line ++ "\n"), filename)
  | none => .ok (updateFS fs filename (header_line ++ "\n"), filename)

/-! ### The main loop of `src/isp2/innovate2cvs.py` -/

/-- Configuration of `main(...)` after the two `timedelta` conversions: the
interval widths are held in seconds (`timedelta(minutes=interval)` and
`timedelta(seconds=short_interval)` reduced to `total_seconds()`). -/
structure Config where
  output_directory : Option String := none
  output_file_name : Option String := none
  output_separator : String := "\t"
  intervalSec : Int := 60
  log_short_interval : Bool := false
  short_output_file_name : Option String := none
  short_interval_sec : Int := 60
deriving DecidableEq, Repr

/-- The mutable local variables of `main`, plus the filesystem.  The open file
objects are represented by the path they append to.  The two distinct Python
locals `n_in_short_interval_average` (assigned at a short flush, line 146) and
`short_interval_n_in_average` (assigned at the first seeding, line 152, and
the divisor of the short update, line 154) are kept as two separate fields,
exactly as in the source; an unbound local is `none` and reading it raises
`NameError`. -/
structure LoopState where
  fs : FS := []
  output_file : Option String := none
  short_output_file : Option String := none
  current_date : PyDate
  file_start_time : Option PyDateTime := none
  short_file_start_time : Option PyDateTime := none
  interval_start_time : Option PyDateTime := none
  short_interval_start_time : Option PyDateTime := none
  averaged_data : Option (List Int) := none
  n_in_average : Option Int := none
  short_interval_averaged_data : Option (List Int) := none
  n_in_short_interval_average : Option Int := none
  short_interval_n_in_average : Option Int := none
deriving DecidableEq, Repr

/-- The state at the top of `main`: `current_date = datetime.now().date()`,
everything else unset. -/
def initState (startDate : PyDate) : LoopState := { current_date := startDate }

/-- Keys of the `data_dict` built at a flush: `'timestamp'`, `'hours'`, then
`'chan %i' % (i+1)` for each averaged channel. -/
def dataDictKeys (avgs : List Int) : List String :=
  ["timestamp", "hours"] ++
    (List.range avgs.length).map (fun i => "chan " ++ toString (i + 1))

/-- Values of the `data_dict` built at a flush: the window start time as
`%H:%M:%S`, the elapsed hours since file start
(`total_seconds()/3600.0`, the rational `Δseconds / 3600`) under the given
fixed format, then `str(avg)` for each channel. -/
def dataDictVals (ist fst : PyDateTime) (width prec : Nat) (avgs : List Int) :
    List String :=
  [strftimeHMS ist,
   pyFormatFixedRat width prec (ist.absSeconds - fst.absSeconds) 3600] ++
    avgs.map pyStr

/-- Embeds lines 99–125 of `innovate2cvs.py` (the primary-interval block), for
a state whose four start times have already been seeded.  On
`now - interval_start_time > interval` the closed window is written out:
the `data_dict` is built (`enumerate(None)` would be a `TypeError`), the
output file is opened or rolled over — where an explicit `output_file_name`
leads to the two-argument call `get_output_file(output_file_name, data_dict)`,
which is missing the required positional parameter `sep` and raises
`TypeError` before the function body runs — the row is written, and the
window restarts from the current sample with `n_in_average = 1`.  Otherwise
the running average is seeded or updated; the update divides by
`n_in_average`, which is never incremented.  The source's
`current_date = datetime.datetime.now().date()` inside the rollover branch is
modelled as the current observation's date (`now.date`): the wall clock has
not measurably advanced since `now` was taken a few lines earlier. -/
def primaryBlock (cfg : Config) (s : LoopState) (now : PyDateTime)
    (aux : List Int) : Py LoopState :=
  let ist := s.interval_start_time.getD now
  if now.absSeconds - ist.absSeconds > cfg.intervalSec then do
    let fst := s.file_start_time.getD now
    let avgs ←
      match s.averaged_data with
      | some l => Except.ok l
      | none => Except.error PyErr.typeError
    let keys := dataDictKeys avgs
    let vals := dataDictVals ist fst 6 3 avgs
    let opened ←
      if s.output_file.isNone ∨ now.date ≠ s.current_date then
        let cd := now.date
        match cfg.output_file_name with
        | none => do
          let fname := get_output_filename cd cfg.output_directory false
          let r ← get_output_file s.fs fname keys cfg.output_separator
          let s2 : LoopState :=
            { s with fs := r.1, current_date := cd, output_file := some r.2 }
          Except.ok (s2, r.2)
        | some _ => Except.error PyErr.typeError
      else
        match s.output_file with
        | some h => Except.ok (s, h)
        | none => Except.error PyErr.nameError
    let s := opened.1
    let row := String.intercalate cfg.output_separator vals ++ "\n"
    let s := { s with fs := appendFS s.fs opened.2 row }
    Except.ok { s with interval_start_time := some now
                       averaged_data := some aux
                       n_in_average := some 1 }
  else
    if ¬ pyTruthyOList s.averaged_data then
      Except.ok { s with averaged_data := some aux, n_in_average := some 1 }
    else do
      let n ←
        match s.n_in_average with
        | some n => Except.ok n
        | none => Except.error PyErr.nameError
      let avgs := s.averaged_data.getD []
      let updated := List.zipWith (fun avg new => avg + (new - avg).fdiv n) avgs aux
      Except.ok { s with averaged_data := some updated }

/-- Embeds lines 127–154 of `innovate2cvs.py` (the short-interval block),
mirroring `primaryBlock` with the short-interval state, the `'07.4f'` hours
format, and the short date-derived filename (note line 139 passes
`output_directory`, not `short_output_directory`).  `current_date` is the same
variable the primary block compares against and assigns.  The flush assigns
`n_in_short_interval_average = 1` (line 146) while the running update divides
by `short_interval_n_in_average` (line 154), as in the source. -/
def shortBlock (cfg : Config) (s : LoopState) (now : PyDateTime)
    (aux : List Int) : Py LoopState :=
  let sist := s.short_interval_start_time.getD now
  if now.absSeconds - sist.absSeconds > cfg.short_interval_sec then do
    let sfst := s.short_file_start_time.getD now
    let avgs ←
      match s.short_interval_averaged_data with
      | some l => Except.ok l
      | none => Except.error PyErr.typeError
    let keys := dataDictKeys avgs
    let vals := dataDictVals sist sfst 7 4 avgs
    let opened ←
      if s.short_output_file.isNone ∨ now.date ≠ s.current_date then
        let cd := now.date
        match cfg.short_output_file_name with
        | none => do
          let fname := get_output_filename cd cfg.output_directory true
          let r ← get_output_file s.fs fname keys cfg.output_separator
          let s2 : LoopState :=
            { s with fs := r.1, current_date := cd,
                     short_output_file := some r.2 }
          Except.ok (s2, r.2)
        | some _ => Except.error PyErr.typeError
      else
        match s.short_output_file with
        | some h => Except.ok (s, h)
        | none => Except.error PyErr.nameError
    let s := opened.1
    let row := String.intercalate cfg.output_separator vals ++ "\n"
    let s := { s with fs := appendFS s.fs opened.2 row }
    Except.ok { s with short_interval_start_time := some now
                       short_interval_averaged_data := some aux
                       n_in_short_interval_average := some 1 }
  else
    if ¬ pyTruthyOList s.short_interval_averaged_data then
      Except.ok { s with short_interval_averaged_data := some aux
                         short_interval_n_in_average := some 1 }
    else do
      let n ←
        match s.short_interval_n_in_average with
        | some n => Except.ok n
        | none => Except.error PyErr.nameError
      let avgs := s.short_interval_averaged_data.getD []
      let updated := List.zipWith (fun avg new => avg + (new - avg).fdiv n) avgs aux
      Except.ok { s with short_interval_averaged_data := some updated }

/-- Embeds one pass of the loop body of `main` after a sensor-data packet has
produced the channel values `aux` at wall-clock time `now`: lines 90–97 seed
the four start times on the first observation, then the primary block runs,
then the short block when `log_short_interval` is set. -/
def mainStep (cfg : Config) (s0 : LoopState) (now : PyDateTime)
    (aux : List Int) : Py LoopState := do
  let s : LoopState := { s0 with
    file_start_time := some (s0.file_start_time.getD now)
    short_file_start_time := some (s0.short_file_start_time.getD now)
    interval_start_time := some (s0.interval_start_time.getD now)
    short_interval_start_time := some (s0.short_interval_start_time.getD now) }
  let s ← primaryBlock cfg s now aux
  if cfg.log_short_interval then shortBlock cfg s now aux else Except.ok s

/-- Runs `mainStep` over a list of timed observations, propagating any raised
exception (the loop's `try` catches only `KeyboardInterrupt`). -/
def runSteps (cfg : Config) (s : LoopState)
    (events : List (PyDateTime × List Int)) : Py LoopState :=
  events.foldlM (fun s e => mainStep cfg s e.1 e.2) s

/-! ### `Isp2Serial.read_packet` (`src/isp2/isp2_serial.py`) and the driver loop -/

/-- Embeds `read_packet` on a byte stream: `InnovatePacket(self.read(2))`
runs the header setter on the first two bytes and then, still inside
`__init__`, the data setter on the default `data=None`; afterwards
`p.data = self.read(p.packet_length * 2)` — where a `None` packet length makes
`None * 2` a `TypeError` — reads and assigns the payload.  Returns the stored
header, the stored data words, and the unconsumed stream. -/
def read_packet (stream : List Nat) :
    Py (Option Nat × Option (List Nat) × List Nat) := do
  let h ← isp2_header_set (some (stream.take 2))
  let _ ← isp2_data_set h none
  let rest := stream.drop 2
  match isp2_packet_length h with
  | none => Except.error PyErr.typeError
  | some pl => do
    let d ← isp2_data_set h (some (rest.take (pl * 2)))
    Except.ok (h, d, rest.drop (pl * 2))

/-- Embeds one iteration of the `while True` loop of `main`: read a packet,
and when `p.is_sensor_data` is truthy decode every data word with
`aux_word2aux_channel` and run the aggregation step.  The `try` around the
body catches only `KeyboardInterrupt`, so every decode error raised here
propagates out of the loop. -/
def loopBody (cfg : Config) (st : LoopState) (stream : List Nat)
    (now : PyDateTime) : Py (LoopState × List Nat) := do
  let r ← read_packet stream
  if pyTruthyOBool (isp2_is_sensor_data r.1) then do
    let auxN ← (r.2.1.getD []).mapM aux_word2aux_channel
    let st ← mainStep cfg st now (auxN.map (fun n => (n : Int)))
    Except.ok (st, r.2.2)
  else Except.ok (st, r.2.2)

/-- The running-average update expression shared by line 125 of
`innovate2cvs.py` and line 231 of `max2csv.py`,
`avg + (new - avg)/n_in_average`, over exact float values (`ℚ`): in
`max2csv.py` the operands are floats.  Neither script ever increments
`n_in_average` after setting it to `1`. -/
def runningAverageUpdate (avg new n : ℚ) : ℚ := avg + (new - avg) / n

/-! ## Theorems -/

/-- Reduction of the embedded exception monad: binding a success. -/
theorem Py_ok_bind {α β : Type} (a : α) (f : α → Py β) :
    (Except.ok a : Py α) >>= f = f a := rfl

/-- Reduction of the embedded exception monad: binding a raised exception. -/
theorem Py_error_bind {α β : Type} (e : PyErr) (f : α → Py β) :
    (Except.error e : Py α) >>= f = Except.error e := rfl

/-- C1: the per-channel running mean is NOT the arithmetic mean of the
in-window samples, because `n_in_average` is set to `1` and never incremented
(lines 117/123 of `innovate2cvs.py`, 223/229 of `max2csv.py`): observing
10, 20, 30 within one window leaves `averaged_data = [30]` and
`n_in_average = 1`, and the same holds for the float update formula of
`max2csv.py`; the result 30 is not within `1e-9` of the direct arithmetic
mean 20. -/
theorem C1_running_mean_never_counts :
    (runSteps { intervalSec := 60 } (initState ⟨2024, 1, 1⟩)
        [(⟨⟨2024, 1, 1⟩, 0, 0, 0, 0⟩, [10]), (⟨⟨2024, 1, 1⟩, 0, 0, 1, 1⟩, [20]),
         (⟨⟨2024, 1, 1⟩, 0, 0, 2, 2⟩, [30])]).map
        (fun s => (s.averaged_data, s.n_in_average)) =
      Except.ok (some [30], some 1)
    ∧ runningAverageUpdate (runningAverageUpdate 10 20 1) 30 1 = 30
    ∧ ¬ |(30 : ℚ) - (10 + 20 + 30) / 3| ≤ 1 / 1000000000 := by
  refine ⟨rfl, by norm_num [runningAverageUpdate], by norm_num⟩

/-- C2: with a 60 s window and samples 5 at t=0, 7 at t=30, 9 at t=65,
exactly one snapshot row is written at the third sample, a new window starts
seeded with 9 and `count = 1`, and a sample at exactly t = 60 does not flush
(the check is strict `>`); however the emitted mean is 7 — the second sample
overwrote the first, because `n_in_average` is never incremented — not the
claimed 6.0. -/
theorem C2_boundary_flush_emits_unaveraged_mean :
    (runSteps { intervalSec := 60 } (initState ⟨2024, 1, 1⟩)
        [(⟨⟨2024, 1, 1⟩, 0, 0, 0, 0⟩, [5]), (⟨⟨2024, 1, 1⟩, 0, 0, 30, 30⟩, [7]),
         (⟨⟨2024, 1, 1⟩, 0, 1, 5, 65⟩, [9])]).map
        (fun s => (s.fs, s.averaged_data, s.n_in_average)) =
      Except.ok
        ([("20240101-tc4.tsv", "timestamp\thours\tchan 1\n00:00:00\t00.000\t7\n")],
         some [9], some 1)
    ∧ ((7 : Int) = 6 → False)
    ∧ (runSteps { intervalSec := 60 } (initState ⟨2024, 1, 1⟩)
        [(⟨⟨2024, 1, 1⟩, 0, 0, 0, 0⟩, [5]), (⟨⟨2024, 1, 1⟩, 0, 0, 30, 30⟩, [7]),
         (⟨⟨2024, 1, 1⟩, 0, 1, 0, 60⟩, [8])]).map
        (fun s => (s.fs, s.output_file)) =
      Except.ok ([], none) := by
  exact ⟨rfl, by decide, rfl⟩

/-- C9: the two `InnovatePacket.packet_length` implementations are not
behaviorally equivalent.  On the header bytestring `b'\xa2\x80'` — accepted
by both header setters — the `isp2` copy returns 0, but the `innovate` copy
subscripts the stored int (`self._header[0]`) and raises `TypeError` (and its
next line reads the nonexistent attribute `self._headeri`); likewise on
`b'\xb2\x82'` (length 2). -/
theorem C9_innovate_packet_length_diverges :
    isp2_header_set (some [0xA2, 0x80]) = Except.ok (some 0xA280)
    ∧ innovate_header_set (some [0xA2, 0x80]) = Except.ok 0xA280
    ∧ isp2_packet_length (some 0xA280) = some 0
    ∧ innovate_packet_length 0xA280 = Except.error PyErr.typeError
    ∧ isp2_header_set (some [0xB2, 0x82]) = Except.ok (some 0xB282)
    ∧ innovate_header_set (some [0xB2, 0x82]) = Except.ok 0xB282
    ∧ isp2_packet_length (some 0xB282) = some 2
    ∧ innovate_packet_length 0xB282 = Except.error PyErr.typeError := by
  exact ⟨rfl, rfl, rfl, rfl, rfl, rfl, rfl, rfl⟩

/-- C3 counterexample: on the byte stream `0x00 0xA2 0x80 ...` the first
header candidate `0x00A2` is invalid; `read_packet` raises
`Exception('Invalid header')` out of the header setter instead of discarding
one byte and retrying (a resynchronizing reader would find the valid header
`0xA280` at offset 1), and the loop body — whose `try` catches only
`KeyboardInterrupt` — propagates the error, terminating the pipeline. -/
theorem C3_counterexample_invalid_header_raises :
    read_packet [0x00, 0xA2, 0x80] = Except.error PyErr.invalidHeader
    ∧ loopBody {} (initState ⟨2024, 1, 1⟩) [0x00, 0xA2, 0x80]
        ⟨⟨2024, 1, 1⟩, 0, 0, 0, 0⟩ = Except.error PyErr.invalidHeader := by
  exact ⟨rfl, rfl⟩

/-- C3 amended: decode errors DO terminate the pipeline.  For every byte
stream whose first two bytes form a header word failing the `HEADER_MASK`
check, `read_packet` raises the invalid-header error — there is no
byte-at-a-time resynchronization — and the loop body, whose `try` catches
only `KeyboardInterrupt`, propagates it, ending the read-decode-aggregate-
write loop. -/
theorem C3_amended_decode_errors_terminate (b0 b1 : Nat) (rest : List Nat)
    (cfg : Config) (st : LoopState) (now : PyDateTime)
    (h : (b0 * 256 + b1) &&& HEADER_MASK ≠ HEADER_MASK) :
    read_packet (b0 :: b1 :: rest) = Except.error PyErr.invalidHeader
    ∧ loopBody cfg st (b0 :: b1 :: rest) now =
        Except.error PyErr.invalidHeader := by
  have hset : isp2_header_set (some [b0, b1]) =
      (if (b0 * 256 + b1) &&& HEADER_MASK = HEADER_MASK
       then Except.ok (some (b0 * 256 + b1))
       else Except.error PyErr.invalidHeader) := by
    simp [isp2_header_set, toWords, wordsOf, Py_ok_bind]
  have hrp : read_packet (b0 :: b1 :: rest) = Except.error PyErr.invalidHeader := by
    unfold read_packet
    rw [show (b0 :: b1 :: rest).take 2 = [b0, b1] from rfl, hset, if_neg h]
    rfl
  refine ⟨hrp, ?_⟩
  unfold loopBody
  rw [hrp]
  rfl

/-- Witness for C3 amended, at the stream `0x00 0x00`. -/
theorem C3_amended_decode_errors_terminate_witness :
    (0 * 256 + 0) &&& HEADER_MASK ≠ HEADER_MASK
    ∧ read_packet [0, 0] = Except.error PyErr.invalidHeader
    ∧ loopBody {} (initState ⟨2024, 1, 2⟩) [0, 0] ⟨⟨2024, 1, 2⟩, 0, 0, 0, 0⟩ =
        Except.error PyErr.invalidHeader := by
  refine ⟨by decide, ?_⟩
  exact C3_amended_decode_errors_terminate 0 0 [] {} (initState ⟨2024, 1, 2⟩)
    ⟨⟨2024, 1, 2⟩, 0, 0, 0, 0⟩ (by decide)

set_option maxRecDepth 8000 in
/-- C4: a 16-bit header word is accepted by the `isp2` header setter exactly
when `w & HEADER_MASK == HEADER_MASK` (and rejected with the invalid-header
error otherwise); for every valid word the decoded packet length is
`(w & 0b1111111) + (128 if bit 8 else 0)`, which lies in `0..255`; and at the
boundary lengths 0, 127, 128, 255 the length reconstructs exactly the number
of words of a supplied payload accepted by the data setter. -/
theorem C4_header_validity_and_packet_length (w : Nat) (hw : w < 65536) :
    (isp2_header_set (some [w / 256, w % 256]) = Except.ok (some w) ↔
      w &&& HEADER_MASK = HEADER_MASK)
    ∧ (w &&& HEADER_MASK ≠ HEADER_MASK →
        isp2_header_set (some [w / 256, w % 256]) =
          Except.error PyErr.invalidHeader)
    ∧ (w &&& HEADER_MASK = HEADER_MASK →
        isp2_packet_length (some w) =
          some ((w &&& 127) + (if w &&& 256 ≠ 0 then 128 else 0))
        ∧ (w &&& 127) + (if w &&& 256 ≠ 0 then 128 else 0) ≤ 255)
    ∧ (isp2_packet_length (some 0xA280) = some 0
        ∧ isp2_data_set (some 0xA280) (some []) = Except.ok (some [])
        ∧ isp2_packet_length (some 0xA2FF) = some 127
        ∧ isp2_data_set (some 0xA2FF) (some (List.replicate 254 0)) =
            Except.ok (some (List.replicate 127 0))
        ∧ isp2_packet_length (some 0xA380) = some 128
        ∧ isp2_data_set (some 0xA380) (some (List.replicate 256 0)) =
            Except.ok (some (List.replicate 128 0))
        ∧ isp2_packet_length (some 0xA3FF) = some 255
        ∧ isp2_data_set (some 0xA3FF) (some (List.replicate 510 0)) =
            Except.ok (some (List.replicate 255 0))) := by
  have hdec : w / 256 * 256 + w % 256 = w := by omega
  have hset : isp2_header_set (some [w / 256, w % 256]) =
      (if w &&& HEADER_MASK = HEADER_MASK then Except.ok (some w)
       else Except.error PyErr.invalidHeader) := by
    have h0 : isp2_header_set (some [w / 256, w % 256]) =
        (if (w / 256 * 256 + w % 256) &&& HEADER_MASK = HEADER_MASK
         then Except.ok (some (w / 256 * 256 + w % 256))
         else Except.error PyErr.invalidHeader) := by
      simp [isp2_header_set, toWords, wordsOf, Py_ok_bind]
    rw [h0, hdec]
  refine ⟨?_, ?_, ?_, rfl, rfl, rfl, rfl, rfl, rfl, rfl, rfl⟩
  · rw [hset]
    constructor
    · intro hok
      by_contra hmask
      rw [if_neg hmask] at hok
      exact Except.noConfusion hok
    · intro hmask
      rw [if_pos hmask]
  · intro hmask
    rw [hset, if_neg hmask]
  · intro hmask
    have hw0 : w ≠ 0 := by
      intro h0
      rw [h0] at hmask
      exact absurd hmask (by decide)
    have hle : w &&& 127 ≤ 127 := Nat.and_le_right
    constructor
    · simp [isp2_packet_length, hw0]
    · by_cases hb : w &&& 256 ≠ 0 <;> simp [hb] <;> omega

/-- Witness for C4, at the valid sensor-data header word `0xB282`. -/
theorem C4_header_validity_and_packet_length_witness :
    0xB282 < 65536
    ∧ ((isp2_header_set (some [0xB282 / 256, 0xB282 % 256]) =
          Except.ok (some 0xB282) ↔
        0xB282 &&& HEADER_MASK = HEADER_MASK)
      ∧ (0xB282 &&& HEADER_MASK ≠ HEADER_MASK →
          isp2_header_set (some [0xB282 / 256, 0xB282 % 256]) =
            Except.error PyErr.invalidHeader)
      ∧ (0xB282 &&& HEADER_MASK = HEADER_MASK →
          isp2_packet_length (some 0xB282) =
            some ((0xB282 &&& 127) + (if 0xB282 &&& 256 ≠ 0 then 128 else 0))
          ∧ (0xB282 &&& 127) + (if 0xB282 &&& 256 ≠ 0 then 128 else 0) ≤ 255)
      ∧ (isp2_packet_length (some 0xA280) = some 0
          ∧ isp2_data_set (some 0xA280) (some []) = Except.ok (some [])
          ∧ isp2_packet_length (some 0xA2FF) = some 127
          ∧ isp2_data_set (some 0xA2FF) (some (List.replicate 254 0)) =
              Except.ok (some (List.replicate 127 0))
          ∧ isp2_packet_length (some 0xA380) = some 128
          ∧ isp2_data_set (some 0xA380) (some (List.replicate 256 0)) =
              Except.ok (some (List.replicate 128 0))
          ∧ isp2_packet_length (some 0xA3FF) = some 255
          ∧ isp2_data_set (some 0xA3FF) (some (List.replicate 510 0)) =
              Except.ok (some (List.replicate 255 0)))) :=
  ⟨by decide, C4_header_validity_and_packet_length 0xB282 (by decide)⟩

/-- C5: `aux_word2aux_channel` raises the invalid-channel-word error exactly
when a bit of `AUX_CHANNEL_LOW_MASK` is set, and otherwise returns bits 6–0
plus bits 13–8 shifted right by one; in particular
`decode(0b0000000100000010) = 130`, with further literal pairs at the low
(`0x003B → 59`) and high (`0x3F7F → 8191`) ends of the value range. -/
theorem C5_aux_word_decode (w : Nat) :
    (w &&& AUX_CHANNEL_LOW_MASK ≠ 0 →
      aux_word2aux_channel w = Except.error PyErr.notAuxWord)
    ∧ (w &&& AUX_CHANNEL_LOW_MASK = 0 →
      aux_word2aux_channel w =
        Except.ok ((w &&& 0b0000000001111111) +
          ((w &&& 0b0011111100000000) >>> 1)))
    ∧ aux_word2aux_channel 0b0000000100000010 = Except.ok 130
    ∧ aux_word2aux_channel 0x003B = Except.ok 59
    ∧ aux_word2aux_channel 0x3F7F = Except.ok 8191 := by
  refine ⟨?_, ?_, rfl, rfl, rfl⟩
  · intro hbit
    simp [aux_word2aux_channel, hbit]
  · intro hbit
    simp [aux_word2aux_channel, hbit]

/-- Witness for C5, at the invalid word `0x8000` and the valid word `0x0102`. -/
theorem C5_aux_word_decode_witness :
    (0x8000 &&& AUX_CHANNEL_LOW_MASK ≠ 0
      ∧ aux_word2aux_channel 0x8000 = Except.error PyErr.notAuxWord)
    ∧ (0x0102 &&& AUX_CHANNEL_LOW_MASK = 0
      ∧ aux_word2aux_channel 0x0102 =
          Except.ok ((0x0102 &&& 0b0000000001111111) +
            ((0x0102 &&& 0b0011111100000000) >>> 1))) :=
  ⟨⟨by decide, (C5_aux_word_decode 0x8000).1 (by decide)⟩,
   ⟨by decide, (C5_aux_word_decode 0x0102).2.1 (by decide)⟩⟩

/-- C6 counterexample: a pre-existing non-empty file whose first line is
`"timestamp\thours\tchan 1 "` (note the trailing space) differs from the
expected header `"timestamp\thours\tchan 1"`, yet `get_output_file` opens it
in append mode instead of aborting, because the comparison is
`f_check.readline().strip() == header_line` — the first line is whitespace-
stripped before the comparison. -/
theorem C6_counterexample_differing_first_line_appends :
    firstLine "timestamp\thours\tchan 1 \nold row\n" ≠ "timestamp\thours\tchan 1"
    ∧ get_output_file [("out.tsv", "timestamp\thours\tchan 1 \nold row\n")]
        "out.tsv" ["timestamp", "hours", "chan 1"] "\t" =
      Except.ok ([("out.tsv", "timestamp\thours\tchan 1 \nold row\n")], "out.tsv") := by
  exact ⟨by decide, rfl⟩

/-- C6 amended: when the target file exists and is non-empty, its first line
is compared with the expected delimiter-joined header after `strip()`: on a
(stripped) match the file is opened in append mode with contents untouched;
on a mismatch the run aborts via `sys.exit(1)` and the filesystem is not
modified (only a read handle was opened); when the target is absent or empty
the file is created with the header line before any row. -/
theorem C6_amended_header_consistency_protocol (fs : FS) (filename : String)
    (keys : List String) (sep : String) :
    (∀ content, lookupFS fs filename = some content → content ≠ "" →
        (pyStrip (firstLine content) = String.intercalate sep keys →
          get_output_file fs filename keys sep = Except.ok (fs, filename))
        ∧ (pyStrip (firstLine content) ≠ String.intercalate sep keys →
          get_output_file fs filename keys sep = Except.error PyErr.systemExit))
    ∧ (lookupFS fs filename = none ∨ lookupFS fs filename = some "" →
        get_output_file fs filename keys sep =
          Except.ok
            (updateFS fs filename (String.intercalate sep keys ++ "\n"),
             filename)) := by
  constructor
  · intro content hlook hne
    constructor
    · intro hmatch
      simp [get_output_file, hlook, hne, hmatch]
    · intro hmismatch
      simp [get_output_file, hlook, hne, hmismatch]
  · intro hcase
    rcases hcase with hnone | hempty
    · simp [get_output_file, hnone]
    · simp [get_output_file, hempty]

/-- Witness for C6 amended: a matching pre-existing file is appended to, and
a missing file is created with the header line. -/
theorem C6_amended_header_consistency_protocol_witness :
    (lookupFS [("a.tsv", "h1\th2\nrow\n")] "a.tsv" = some "h1\th2\nrow\n"
      ∧ ("h1\th2\nrow\n" : String) ≠ ""
      ∧ pyStrip (firstLine "h1\th2\nrow\n") = String.intercalate "\t" ["h1", "h2"]
      ∧ get_output_file [("a.tsv", "h1\th2\nrow\n")] "a.tsv" ["h1", "h2"] "\t" =
          Except.ok ([("a.tsv", "h1\th2\nrow\n")], "a.tsv"))
    ∧ (lookupFS [] "b.tsv" = none
      ∧ get_output_file [] "b.tsv" ["h1", "h2"] "\t" =
          Except.ok
            (updateFS [] "b.tsv" (String.intercalate "\t" ["h1", "h2"] ++ "\n"),
             "b.tsv")) := by
  refine ⟨⟨rfl, by decide, by decide, ?_⟩, ⟨rfl, ?_⟩⟩
  · exact ((C6_amended_header_consistency_protocol
      [("a.tsv", "h1\th2\nrow\n")] "a.tsv" ["h1", "h2"] "\t").1
      "h1\th2\nrow\n" rfl (by decide)).1 (by decide)
  · exact (C6_amended_header_consistency_protocol [] "b.tsv" ["h1", "h2"] "\t").2
      (Or.inl rfl)

/-- C7: the two writers share the one `current_date` variable, so cross-day
rollover is missed by whichever writer flushes second.  In the trace below
(primary and short intervals both 60 s; flushes on 2024-01-01 open both
files; the sample at 2024-01-02 00:02:00 flushes both windows) the primary
writer rolls over to `20240102-tc4.tsv` — closing its handle, re-resolving
the date-derived name, and writing the header first — but the short writer's
`now.date() != current_date` test then sees the already-updated
`current_date`, so its 2024-01-02 row is appended to
`20240101-short_interval.tsv` and no `20240102-short_interval.tsv` is ever
created. -/
theorem C7_shared_current_date_skips_short_rollover :
    (runSteps
        { intervalSec := 60, log_short_interval := true, short_interval_sec := 60 }
        (initState ⟨2024, 1, 1⟩)
        [(⟨⟨2024, 1, 1⟩, 0, 0, 0, 0⟩, [1]),
         (⟨⟨2024, 1, 1⟩, 0, 2, 0, 120⟩, [2]),
         (⟨⟨2024, 1, 2⟩, 0, 2, 0, 86520⟩, [3])]).map
        (fun s => (s.fs, s.output_file, s.short_output_file)) =
      Except.ok
        ([("20240101-tc4.tsv",
            "timestamp\thours\tchan 1\n00:00:00\t00.000\t1\n"),
          ("20240101-short_interval.tsv",
            "timestamp\thours\tchan 1\n00:00:00\t00.0000\t1\n00:02:00\t00.0333\t2\n"),
          ("20240102-tc4.tsv",
            "timestamp\thours\tchan 1\n00:02:00\t00.033\t2\n")],
         some "20240102-tc4.tsv",
         some "20240101-short_interval.tsv")
    ∧ (runSteps
        { intervalSec := 60, log_short_interval := true, short_interval_sec := 60 }
        (initState ⟨2024, 1, 1⟩)
        [(⟨⟨2024, 1, 1⟩, 0, 0, 0, 0⟩, [1]),
         (⟨⟨2024, 1, 1⟩, 0, 2, 0, 120⟩, [2]),
         (⟨⟨2024, 1, 2⟩, 0, 2, 0, 86520⟩, [3])]).map
        (fun s => lookupFS s.fs "20240102-short_interval.tsv") =
      Except.ok none := by
  exact ⟨rfl, rfl⟩

/-- C8 counterexample: the channel-mean columns are not stringified with the
fixed-precision convention.  In the trace below the flushed row is
`00:00:00<TAB>00.000<TAB>130`: the channel column is `str(130) = "130"`,
whereas the 3-decimal fixed-precision rendering of the same value is
`"130.000"`. -/
theorem C8_counterexample_channel_column_not_fixed_precision :
    (runSteps { intervalSec := 60 } (initState ⟨2024, 1, 1⟩)
        [(⟨⟨2024, 1, 1⟩, 0, 0, 0, 0⟩, [130]),
         (⟨⟨2024, 1, 1⟩, 0, 1, 1, 61⟩, [130])]).map
        (fun s => lookupFS s.fs "20240101-tc4.tsv") =
      Except.ok (some "timestamp\thours\tchan 1\n00:00:00\t00.000\t130\n")
    ∧ pyStr (130 : Int) = "130"
    ∧ pyFormatFixedRat 6 3 130 1 = "130.000"
    ∧ ("130" : String) ≠ "130.000" := by
  exact ⟨rfl, rfl, rfl, by decide⟩

/-- C8 amended: a serialized row is the configured-separator join of the
window-start timestamp as `HH:MM:SS`, the elapsed hours since file start
rendered with the fixed-precision format (3 decimals for the primary window,
4 for the short window), and the channel means in channel-index order each
rendered with Python `str` (a bare integer in this script) — not with the
fixed-precision convention — terminated by a single newline.  Stated for a
primary-window flush on an already-open same-day file, together with the
short window's `'07.4f'` rendering of its hours column. -/
theorem C8_amended_row_serialization (cfg : Config) (s : LoopState)
    (now ist fst : PyDateTime) (aux avgs : List Int) (p : String)
    (h1 : cfg.log_short_interval = false)
    (h2 : s.interval_start_time = some ist)
    (h3 : s.file_start_time = some fst)
    (h4 : now.absSeconds - ist.absSeconds > cfg.intervalSec)
    (h5 : s.averaged_data = some avgs)
    (h6 : s.output_file = some p)
    (h7 : now.date = s.current_date) :
    (∃ s', mainStep cfg s now aux = Except.ok s'
      ∧ s'.fs = appendFS s.fs p
          (String.intercalate cfg.output_separator
            ([strftimeHMS ist,
              pyFormatFixedRat 6 3 (ist.absSeconds - fst.absSeconds) 3600] ++
            avgs.map pyStr) ++ "\n"))
    ∧ pyFormatFixedRat 7 4 120 3600 = "00.0333"
    ∧ pyFormatFixedRat 6 3 120 3600 = "00.033" := by
  refine ⟨?_, rfl, rfl⟩
  unfold mainStep primaryBlock
  simp only [h1, h2, h3, h5, h6, Option.getD_some, Option.isNone_some,
    Bool.false_eq_true, false_or, h7, ne_eq, not_true_eq_false, if_false,
    if_pos h4, Py_ok_bind, if_true, Bool.or_self, ite_self]
  simp [h4, h7, Py_ok_bind, dataDictVals]

/-- Witness for C8 amended: a concrete primary-window flush on an open
same-day file appends exactly the serialized row. -/
theorem C8_amended_row_serialization_witness :
    (∃ s', mainStep { intervalSec := 60 }
        { fs := [("f.tsv", "timestamp\thours\tchan 1\n")]
          output_file := some "f.tsv"
          current_date := ⟨2024, 1, 1⟩
          file_start_time := some ⟨⟨2024, 1, 1⟩, 0, 0, 0, 0⟩
          interval_start_time := some ⟨⟨2024, 1, 1⟩, 0, 0, 0, 0⟩
          averaged_data := some [130]
          n_in_average := some 1 }
        ⟨⟨2024, 1, 1⟩, 0, 1, 1, 61⟩ [7] = Except.ok s'
      ∧ s'.fs = appendFS [("f.tsv", "timestamp\thours\tchan 1\n")] "f.tsv"
          (String.intercalate "\t"
            ([strftimeHMS ⟨⟨2024, 1, 1⟩, 0, 0, 0, 0⟩,
              pyFormatFixedRat 6 3
                ((⟨⟨2024, 1, 1⟩, 0, 0, 0, 0⟩ : PyDateTime).absSeconds -
                 (⟨⟨2024, 1, 1⟩, 0, 0, 0, 0⟩ : PyDateTime).absSeconds) 3600] ++
             ([130] : List Int).map pyStr) ++ "\n"))
    ∧ pyFormatFixedRat 7 4 120 3600 = "00.0333"
    ∧ pyFormatFixedRat 6 3 120 3600 = "00.033" :=
  C8_amended_row_serialization { intervalSec := 60 }
    { fs := [("f.tsv", "timestamp\thours\tchan 1\n")]
      output_file := some "f.tsv"
      current_date := ⟨2024, 1, 1⟩
      file_start_time := some ⟨⟨2024, 1, 1⟩, 0, 0, 0, 0⟩
      interval_start_time := some ⟨⟨2024, 1, 1⟩, 0, 0, 0, 0⟩
      averaged_data := some [130]
      n_in_average := some 1 }
    ⟨⟨2024, 1, 1⟩, 0, 1, 1, 61⟩ ⟨⟨2024, 1, 1⟩, 0, 0, 0, 0⟩
    ⟨⟨2024, 1, 1⟩, 0, 0, 0, 0⟩ [7] [130] "f.tsv"
    rfl rfl rfl (by decide) rfl rfl rfl

/-- C10: when an explicit output file name is configured, a window flush that
must (re)open the file reaches the two-argument call
`get_output_file(output_file_name, data_dict)` — the required positional
parameter `sep` is missing — and raises `TypeError` instead of writing a row;
the same holds for the short-interval writer with an explicit short output
file name (`get_output_file(short_output_file_name, data_dict)`). -/
theorem C10_explicit_output_file_name_type_error (cfg : Config)
    (s : LoopState) (now : PyDateTime) (aux : List Int) :
    (∀ f ist avgs, cfg.output_file_name = some f → s.output_file = none →
      s.interval_start_time = some ist →
      now.absSeconds - ist.absSeconds > cfg.intervalSec →
      s.averaged_data = some avgs →
      mainStep cfg s now aux = Except.error PyErr.typeError)
    ∧ (∀ g ist sist savgs avgs n, cfg.log_short_interval = true →
      cfg.short_output_file_name = some g → s.short_output_file = none →
      s.interval_start_time = some ist →
      ¬ now.absSeconds - ist.absSeconds > cfg.intervalSec →
      s.averaged_data = some avgs → avgs ≠ [] → s.n_in_average = some n →
      s.short_interval_start_time = some sist →
      now.absSeconds - sist.absSeconds > cfg.short_interval_sec →
      s.short_interval_averaged_data = some savgs →
      mainStep cfg s now aux = Except.error PyErr.typeError) := by
  constructor
  · intro f ist avgs hf hof hist hflush havg
    unfold mainStep primaryBlock
    simp [hf, hof, hist, havg, hflush, Py_ok_bind, Py_error_bind]
  · intro g ist sist savgs avgs n hlog hg hsof hist hnoflush havg hne hn
      hsist hsflush hsavg
    cases avgs with
    | nil => exact absurd rfl hne
    | cons a as =>
      unfold mainStep primaryBlock shortBlock
      simp [hlog, hg, hsof, hist, hnoflush, havg, hn, hsist, hsflush, hsavg,
        pyTruthyOList, Py_ok_bind, Py_error_bind]

/-- Witness for C10: concrete runs with an explicit primary output file name
(first) and an explicit short output file name (second) raise `TypeError` at
the first flush of the respective writer. -/
theorem C10_explicit_output_file_name_type_error_witness :
    mainStep { intervalSec := 60, output_file_name := some "my.tsv" }
      { current_date := ⟨2024, 1, 1⟩
        interval_start_time := some ⟨⟨2024, 1, 1⟩, 0, 0, 0, 0⟩
        averaged_data := some [130] }
      ⟨⟨2024, 1, 1⟩, 0, 1, 1, 61⟩ [7] = Except.error PyErr.typeError
    ∧ mainStep
      { intervalSec := 6000, log_short_interval := true,
        short_interval_sec := 60, short_output_file_name := some "s.tsv" }
      { current_date := ⟨2024, 1, 1⟩
        interval_start_time := some ⟨⟨2024, 1, 1⟩, 0, 0, 0, 0⟩
        short_interval_start_time := some ⟨⟨2024, 1, 1⟩, 0, 0, 0, 0⟩
        averaged_data := some [130]
        n_in_average := some 1
        short_interval_averaged_data := some [130] }
      ⟨⟨2024, 1, 1⟩, 0, 1, 1, 61⟩ [7] = Except.error PyErr.typeError :=
  ⟨(C10_explicit_output_file_name_type_error
      { intervalSec := 60, output_file_name := some "my.tsv" }
      { current_date := ⟨2024, 1, 1⟩
        interval_start_time := some ⟨⟨2024, 1, 1⟩, 0, 0, 0, 0⟩
        averaged_data := some [130] }
      ⟨⟨2024, 1, 1⟩, 0, 1, 1, 61⟩ [7]).1 "my.tsv"
      ⟨⟨2024, 1, 1⟩, 0, 0, 0, 0⟩ [130] rfl rfl rfl (by decide) rfl,
   (C10_explicit_output_file_name_type_error
      { intervalSec := 6000, log_short_interval := true,
        short_interval_sec := 60, short_output_file_name := some "s.tsv" }
      { current_date := ⟨2024, 1, 1⟩
        interval_start_time := some ⟨⟨2024, 1, 1⟩, 0, 0, 0, 0⟩
        short_interval_start_time := some ⟨⟨2024, 1, 1⟩, 0, 0, 0, 0⟩
        averaged_data := some [130]
        n_in_average := some 1
        short_interval_averaged_data := some [130] }
      ⟨⟨2024, 1, 1⟩, 0, 1, 1, 61⟩ [7]).2 "s.tsv"
      ⟨⟨2024, 1, 1⟩, 0, 0, 0, 0⟩ ⟨⟨2024, 1, 1⟩, 0, 0, 0, 0⟩ [130] [130] 1
      rfl rfl rfl rfl (by decide) rfl (by decide) rfl rfl (by decide) rfl⟩

end Hephaestus
